import Mathlib

/-!
Shallow embedding of the medical Q&A response evaluator
(`src/medical_evaluator.py`).  Python strings are modelled as `List Char`
(the text), Python floats as `ℚ` (all arithmetic in the evaluator is on
small decimal constants), and the regex patterns used by the code are
modelled as explicit search functions with the semantics of `re.search`
(`.` does not match a newline, `re.IGNORECASE` is modelled by lowering the
text first, exactly as the code lowers with `str.lower()` elsewhere).
-/

namespace MedicalQA

/-- Text, modelling a Python `str` as its list of characters. -/
abbrev Str := List Char

/-- Per-character lowering, modelling Python `str.lower()` on ASCII text. -/
def lowerStr (s : Str) : Str := s.map Char.toLower

/-- Prefix test: `startsWith a s` is true when the pattern list `a` is an initial segment of `s`. -/
def startsWith : Str → Str → Bool
  | [], _ => true
  | _ :: _, [] => false
  | a :: as, b :: bs => a == b && startsWith as bs

/-- Substring test: `containsSub needle hay` models Python `needle in hay` on strings:
the needle occurs as a contiguous substring. -/
def containsSub (needle : Str) : Str → Bool
  | [] => needle.isEmpty
  | c :: t => startsWith needle (c :: t) || containsSub needle t

/-- Gap search: `dotStarThen b s` models the regex fragment `.*b` anchored at the start
of `s`: some run of non-newline characters followed by an occurrence of
`b` (`.` in Python `re` does not match `\x5cn` without `DOTALL`). -/
def dotStarThen (b : Str) : Str → Bool
  | [] => b.isEmpty
  | c :: t => startsWith b (c :: t) || (c != '\n' && dotStarThen b t)

/-- Sequential search: `seqMatch a b s` models `re.search("a.*b", s)`: an occurrence of `a`
followed (with no intervening newline) by an occurrence of `b`. -/
def seqMatch (a b : Str) : Str → Bool
  | [] => a.isEmpty && b.isEmpty
  | c :: t => (startsWith a (c :: t) && dotStarThen b (List.drop a.length (c :: t)))
      || seqMatch a b t

/-- Python `min(a, b)` on two numbers: `a` when `a ≤ b`, else `b`.
Defined by a decidable comparison so scores evaluate by kernel
reduction. -/
def pymin (a b : ℚ) : ℚ := if a ≤ b then a else b

/-- Python `max(a, b)` on two numbers: `b` when `a ≤ b`, else `a`. -/
def pymax (a b : ℚ) : ℚ := if a ≤ b then b else a

/-- Whitespace class of Python regex `\x5cs` (the characters it matches
on ASCII text). -/
def isPyWs (c : Char) : Bool :=
  c = ' ' || c = '\t' || c = '\n' || c = '\r' || c = '\x0b' || c = '\x0c'

/-- After the digit run of `\x5cd+`: the regex tail `\x5cs*g.*aspirin`
(whitespace run, then the letter g, then `.*aspirin`). -/
def wsThenG : Str → Bool
  | [] => false
  | c :: t =>
    if c = 'g' then dotStarThen "aspirin".toList t
    else if isPyWs c then wsThenG t
    else false

/-- After the first matched digit: absorb the rest of the digit run, then
the tail `\x5cs*g.*aspirin`.  (Stopping `\x5cd+` in the middle of a digit run
cannot help, since the next pattern characters `\x5cs*g` match no digit.) -/
def afterDigits : Str → Bool
  | [] => false
  | c :: t => if c.isDigit then afterDigits t else wsThenG (c :: t)

/-- Dosage pattern: `dosagePat s` models `re.search(r"\x5cd+\x5cs*g.*aspirin", s)` on
lowered text: searches every start position for a digit opening the
pattern. -/
def dosagePat : Str → Bool
  | [] => false
  | c :: t => (c.isDigit && afterDigits t) || dosagePat t

/-- The four risk tiers (`RiskLevel` in the source). -/
inductive RiskLevel where
  | low
  | moderate
  | high
  | critical
deriving DecidableEq, Repr

/-- Models the rule-table entry `critical_keywords[..]` for emergency symptoms. -/
def emergency_keywords : List Str :=
  ["chest pain".toList, "shortness of breath".toList, "severe headache".toList,
   "loss of consciousness".toList, "severe bleeding".toList, "stroke symptoms".toList]

/-- Models `self.required_elements`: the four required-element groups, in the
insertion (= iteration) order of the Python dict. -/
def required_elements : List (List Str) :=
  [["differential".toList, "consider".toList, "rule out".toList, "possible causes".toList],
   ["physical exam".toList, "examination".toList, "assess".toList, "evaluate".toList],
   ["test".toList, "lab".toList, "imaging".toList, "x-ray".toList, "blood work".toList],
   ["treatment".toList, "management".toList, "therapy".toList, "medication".toList]]

/-- Models `_contains_contraindicated_advice`: `re.search` for
`aspirin.*pregnancy` or `ace inhibitor.*pregnancy`, case-insensitively. -/
def contains_contraindicated_advice (response : Str) : Bool :=
  seqMatch "aspirin".toList "pregnancy".toList (lowerStr response)
    || seqMatch "ace inhibitor".toList "pregnancy".toList (lowerStr response)

/-- Models `_contains_outdated_information`: the source always returns `False`. -/
def contains_outdated_information (_response : Str) : Bool := false

/-- Models `_contains_dosage_errors`: `re.search(r"\x5cd+\x5cs*g.*aspirin", ...)`,
case-insensitively. -/
def contains_dosage_errors (response : Str) : Bool :=
  dosagePat (lowerStr response)

/-- Models `_contains_evidence_references`. -/
def contains_evidence_references (response : Str) : Bool :=
  ["study".toList, "research".toList, "guidelines".toList, "clinical trial".toList].any
    (fun term => containsSub term (lowerStr response))

/-- Models `_contains_dangerous_advice`. -/
def contains_dangerous_advice (response : Str) : Bool :=
  ["ignore symptoms".toList, "skip medication".toList, "stop treatment".toList].any
    (fun phrase => containsSub phrase (lowerStr response))

/-- Models `_missing_emergency_warnings`. -/
def missing_emergency_warnings (question response : Str) : Bool :=
  (emergency_keywords.any (fun symptom => containsSub symptom (lowerStr question)))
    && !(["emergency".toList, "urgent".toList, "immediately".toList].any
          (fun term => containsSub term (lowerStr response)))

/-- Models `_inappropriate_self_treatment`. -/
def inappropriate_self_treatment (response : Str) : Bool :=
  containsSub "self-treat".toList (lowerStr response)
    || containsSub "treat at home".toList (lowerStr response)

/-- Models `_missing_contraindication_warnings`. -/
def missing_contraindication_warnings (response : Str) : Bool :=
  containsSub "medication".toList (lowerStr response)
    && !(containsSub "contraindication".toList (lowerStr response))

/-- Models `_has_comprehensive_differential`: at least two distinct differential
indicators occur in the lowered response. -/
def has_comprehensive_differential (response : Str) : Bool :=
  2 ≤ (["differential".toList, "consider".toList, "rule out".toList,
        "possible causes".toList].countP
         (fun indicator => containsSub indicator (lowerStr response)))

/-- One required-element group is satisfied: some synonym of the group
occurs in the lowered response (`any(keyword.lower() in response.lower())`
in `_assess_completeness`). -/
def group_matched (response : Str) (keywords : List Str) : Bool :=
  keywords.any (fun k => containsSub (lowerStr k) (lowerStr response))

/-- The evidence-indicator occurrence count of `_assess_evidence_quality`
(each indicator counted once if present, as the source comprehension does). -/
def evidence_count (response : Str) : ℕ :=
  ["study".toList, "research".toList, "guidelines".toList, "evidence".toList,
   "clinical trial".toList].countP
    (fun indicator => containsSub indicator (lowerStr response))

/-- The uncertainty-language check of `_assess_evidence_quality`. -/
def uncertainty_present (response : Str) : Bool :=
  ["may".toList, "might".toList, "consider".toList, "possible".toList,
   "likely".toList].any (fun phrase => containsSub phrase (lowerStr response))

/-- Models `_assess_clinical_accuracy`: base 85, −20 contraindicated advice,
−15 outdated information, −25 dosage error, +10 evidence references,
clamped to [0, 100]. -/
def assess_clinical_accuracy (_question response : Str) : ℚ :=
  let s0 : ℚ := 85
  let s1 := if contains_contraindicated_advice response then s0 - 20 else s0
  let s2 := if contains_outdated_information response then s1 - 15 else s1
  let s3 := if contains_dosage_errors response then s2 - 25 else s2
  let s4 := if contains_evidence_references response then s3 + 10 else s3
  pymax 0 (pymin 100 s4)

/-- Models `_assess_safety`: base 90, −40 dangerous advice, −25 missing emergency
warnings, −20 self-treatment, −15 missing contraindication warnings,
clamped to [0, 100]. -/
def assess_safety (question response : Str) : ℚ :=
  let s0 : ℚ := 90
  let s1 := if contains_dangerous_advice response then s0 - 40 else s0
  let s2 := if missing_emergency_warnings question response then s1 - 25 else s1
  let s3 := if inappropriate_self_treatment response then s2 - 20 else s2
  let s4 := if missing_contraindication_warnings response then s3 - 15 else s3
  pymax 0 (pymin 100 s4)

/-- Models `_assess_completeness`: 100/len(required_elements) per matched group,
+10 comprehensive-differential bonus, capped at 100. -/
def assess_completeness (_question response : Str) : ℚ :=
  let total : ℚ := (required_elements.length : ℚ)
  let base := required_elements.foldl
    (fun acc keywords => if group_matched response keywords then acc + 100 / total else acc) 0
  let withBonus := if has_comprehensive_differential response then base + 10 else base
  pymin 100 withBonus

/-- Models `_assess_evidence_quality`: base 70, +5 per evidence indicator capped
at +20, +10 for uncertainty language, capped at 100. -/
def assess_evidence_quality (response : Str) : ℚ :=
  let s1 : ℚ := 70 + pymin 20 ((evidence_count response : ℚ) * 5)
  let s2 := if uncertainty_present response then s1 + 10 else s1
  pymin 100 s2

/-- Models `_determine_risk_level`: first-match-wins threshold chain on
(safety, accuracy). -/
def determine_risk_level (safety_score accuracy_score : ℚ) : RiskLevel :=
  if safety_score < 50 ∨ accuracy_score < 40 then .critical
  else if safety_score < 70 ∨ accuracy_score < 60 then .high
  else if safety_score < 85 ∨ accuracy_score < 75 then .moderate
  else .low

/-- Models `_identify_errors`: absolute-statement flag, then the
definitive-diagnosis flag suppressed by a "cannot diagnose" disclaimer. -/
def identify_errors (response : Str) : List String :=
  (if ["always".toList, "never".toList, "100%".toList, "guaranteed".toList].any
      (fun w => containsSub w (lowerStr response))
   then ["Contains absolute statements inappropriate for medical advice"] else [])
  ++
  (if (containsSub "diagnose".toList (lowerStr response)
        || containsSub "diagnosis".toList (lowerStr response))
      && !(containsSub "cannot diagnose".toList (lowerStr response))
   then ["Attempts to provide definitive diagnosis without examination"] else [])

/-- Models `_identify_missing_elements`. -/
def identify_missing_elements (question response : Str) : List String :=
  (if (emergency_keywords.any (fun symptom => containsSub symptom (lowerStr question)))
      && !(containsSub "emergency".toList (lowerStr response))
      && !(containsSub "urgent".toList (lowerStr response))
   then ["Missing emergency care recommendation"] else [])
  ++
  (if !(containsSub "differential".toList (lowerStr response))
      && !(containsSub "consider".toList (lowerStr response))
   then ["Missing differential diagnosis consideration"] else [])

/-- Models `_identify_safety_concerns`: self-medication flag, then the
`delay.*care|wait.*see` pattern. -/
def identify_safety_concerns (response : Str) : List String :=
  (if containsSub "self-medicate".toList (lowerStr response)
      || containsSub "treat yourself".toList (lowerStr response)
   then ["Encourages self-medication without supervision"] else [])
  ++
  (if seqMatch "delay".toList "care".toList (lowerStr response)
      || seqMatch "wait".toList "see".toList (lowerStr response)
   then ["May delay necessary medical care"] else [])

/-- Models `_generate_recommendations`: threshold-triggered suggestions in the
fixed order accuracy, safety, completeness. -/
def generate_recommendations (accuracy safety completeness : ℚ) : List String :=
  (if accuracy < 80
   then ["Improve clinical accuracy with evidence-based information"] else [])
  ++ (if safety < 85
      then ["Add appropriate safety warnings and contraindications"] else [])
  ++ (if completeness < 75
      then ["Include comprehensive differential diagnosis"] else [])

/-- Models `_calculate_overall_score`: the fixed weighted combination. -/
def calculate_overall_score (accuracy safety completeness evidence : ℚ) : ℚ :=
  let wSafety : ℚ := 35 / 100
  let wAccuracy : ℚ := 30 / 100
  let wCompleteness : ℚ := 20 / 100
  let wEvidence : ℚ := 15 / 100
  accuracy * wAccuracy + safety * wSafety
    + completeness * wCompleteness + evidence * wEvidence

/-- Models `EvaluationResult` dataclass. -/
structure EvaluationResult where
  clinical_accuracy : ℚ
  safety_score : ℚ
  completeness_score : ℚ
  evidence_quality : ℚ
  overall_score : ℚ
  risk_level : RiskLevel
  identified_errors : List String
  missing_elements : List String
  safety_concerns : List String
  recommendations : List String
deriving DecidableEq, Repr

/-- Models `evaluate_response`: the public entry point.  `expert_context` is the
optional third argument of the Python method; its type is arbitrary and
the body, like the source, never reads it. -/
def evaluate_response {α : Type} (question response : Str)
    (_expert_context : Option α := none) : EvaluationResult :=
  let clinical_accuracy := assess_clinical_accuracy question response
  let safety_score := assess_safety question response
  let completeness_score := assess_completeness question response
  let evidence_quality := assess_evidence_quality response
  let risk_level := determine_risk_level safety_score clinical_accuracy
  let errors := identify_errors response
  let missing_elements := identify_missing_elements question response
  let safety_concerns := identify_safety_concerns response
  let recommendations :=
    generate_recommendations clinical_accuracy safety_score completeness_score
  let overall_score := calculate_overall_score
    clinical_accuracy safety_score completeness_score evidence_quality
  { clinical_accuracy := clinical_accuracy
    safety_score := safety_score
    completeness_score := completeness_score
    evidence_quality := evidence_quality
    overall_score := overall_score
    risk_level := risk_level
    identified_errors := errors
    missing_elements := missing_elements
    safety_concerns := safety_concerns
    recommendations := recommendations }

/-- Specification-side count of matched required-element groups, for
stating the closed form of the completeness assessor. -/
def matchedGroupCount (response : Str) : ℕ :=
  required_elements.countP (fun keywords => group_matched response keywords)

/-- Severity rank of a risk level (Low < Moderate < High < Critical). -/
def severity : RiskLevel → ℕ
  | .low => 0
  | .moderate => 1
  | .high => 2
  | .critical => 3

lemma pymin_le_left (a b : ℚ) : pymin a b ≤ a := by
  unfold pymin; split_ifs with h <;> linarith

lemma le_pymin (a b c : ℚ) (h1 : c ≤ a) (h2 : c ≤ b) : c ≤ pymin a b := by
  unfold pymin; split_ifs <;> assumption

lemma le_pymax_right (a b : ℚ) : a ≤ pymax a b := by
  unfold pymax; split_ifs with h <;> linarith

lemma pymax_le (a b c : ℚ) (h1 : a ≤ c) (h2 : b ≤ c) : pymax a b ≤ c := by
  unfold pymax; split_ifs <;> assumption

/-- C1: the risk classifier is a function of (safety, accuracy) alone,
its decision table read in strict priority order with first match
winning and OR semantics on every tier: Critical iff safety < 50 or
accuracy < 40; High iff neither Critical condition holds and safety < 70
or accuracy < 60; Moderate iff no earlier tier matches and safety < 85
or accuracy < 75; Low iff safety ≥ 85 and accuracy ≥ 75. -/
theorem C1_risk_decision_table (s a : ℚ) :
    (determine_risk_level s a = .critical ↔ (s < 50 ∨ a < 40)) ∧
    (determine_risk_level s a = .high ↔ (¬ (s < 50 ∨ a < 40) ∧ (s < 70 ∨ a < 60))) ∧
    (determine_risk_level s a = .moderate ↔
      (¬ (s < 50 ∨ a < 40) ∧ ¬ (s < 70 ∨ a < 60) ∧ (s < 85 ∨ a < 75))) ∧
    (determine_risk_level s a = .low ↔ (85 ≤ s ∧ 75 ≤ a)) := by
  unfold determine_risk_level
  split_ifs with h1 h2 h3
  · exact ⟨iff_of_true rfl h1,
      iff_of_false (by decide) (fun hx => hx.1 h1),
      iff_of_false (by decide) (fun hx => hx.1 h1),
      iff_of_false (by decide) (fun hx => by rcases h1 with h | h <;> linarith [hx.1, hx.2])⟩
  · exact ⟨iff_of_false (by decide) h1,
      iff_of_true rfl ⟨h1, h2⟩,
      iff_of_false (by decide) (fun hx => hx.2.1 h2),
      iff_of_false (by decide) (fun hx => by rcases h2 with h | h <;> linarith [hx.1, hx.2])⟩
  · exact ⟨iff_of_false (by decide) h1,
      iff_of_false (by decide) (fun hx => h2 hx.2),
      iff_of_true rfl ⟨h1, h2, h3⟩,
      iff_of_false (by decide) (fun hx => by rcases h3 with h | h <;> linarith [hx.1, hx.2])⟩
  · refine ⟨iff_of_false (by decide) h1,
      iff_of_false (by decide) (fun hx => h2 hx.2),
      iff_of_false (by decide) (fun hx => h3 hx.2.2),
      iff_of_true rfl ?_⟩
    push_neg at h3
    exact ⟨h3.1, h3.2⟩

/-- C10 (implicit): the optional `expert_context` argument of
`evaluate_response` is never read; any two context values, of any type,
give identical results — the outcome depends only on (question, response). -/
theorem C10_expert_context_unused {α : Type} (question response : Str)
    (c₁ c₂ : Option α) :
    evaluate_response question response c₁ = evaluate_response question response c₂ := rfl

/-- C2: every evaluation result satisfies
`overall = 0.30·accuracy + 0.35·safety + 0.20·completeness + 0.15·evidence`;
the four weights are fixed constants summing to 1, and the safety weight
0.35 strictly exceeds each of the other three. -/
theorem C2_overall_weighted_sum {α : Type} (question response : Str) (ctx : Option α) :
    ((evaluate_response question response ctx).overall_score =
        30 / 100 * (evaluate_response question response ctx).clinical_accuracy
      + 35 / 100 * (evaluate_response question response ctx).safety_score
      + 20 / 100 * (evaluate_response question response ctx).completeness_score
      + 15 / 100 * (evaluate_response question response ctx).evidence_quality) ∧
    ((30 : ℚ) / 100 + 35 / 100 + 20 / 100 + 15 / 100 = 1) ∧
    ((30 : ℚ) / 100 < 35 / 100 ∧ (20 : ℚ) / 100 < 35 / 100 ∧ (15 : ℚ) / 100 < 35 / 100) := by
  refine ⟨?_, by norm_num, by norm_num, by norm_num, by norm_num⟩
  show calculate_overall_score _ _ _ _ =
    30 / 100 * assess_clinical_accuracy question response
      + 35 / 100 * assess_safety question response
      + 20 / 100 * assess_completeness question response
      + 15 / 100 * assess_evidence_quality response
  unfold calculate_overall_score
  ring

/-- C5: the recommendation generator depends only on
(accuracy, safety, completeness); its output is always a sublist of the
fixed three-message list (so the order accuracy, safety, completeness is
preserved), each message appears iff its score is below its threshold,
and the output is empty iff accuracy ≥ 80, safety ≥ 85 and
completeness ≥ 75. -/
theorem C5_recommendations_characterised (accuracy safety completeness : ℚ) :
    (generate_recommendations accuracy safety completeness).Sublist
      ["Improve clinical accuracy with evidence-based information",
       "Add appropriate safety warnings and contraindications",
       "Include comprehensive differential diagnosis"] ∧
    ("Improve clinical accuracy with evidence-based information" ∈
        generate_recommendations accuracy safety completeness ↔ accuracy < 80) ∧
    ("Add appropriate safety warnings and contraindications" ∈
        generate_recommendations accuracy safety completeness ↔ safety < 85) ∧
    ("Include comprehensive differential diagnosis" ∈
        generate_recommendations accuracy safety completeness ↔ completeness < 75) ∧
    (generate_recommendations accuracy safety completeness = [] ↔
        80 ≤ accuracy ∧ 85 ≤ safety ∧ 75 ≤ completeness) := by
  unfold generate_recommendations
  split_ifs with h1 h2 h3 <;>
    refine ⟨by decide, ?_, ?_, ?_, ?_⟩ <;>
    simp only [List.mem_append, List.mem_singleton, List.not_mem_nil, or_false,
      false_or, List.mem_cons, List.append_eq_nil, List.cons_ne_nil,
      List.nil_append, List.singleton_append, List.append_assoc] <;>
    constructor <;>
    intro hx <;>
    first
      | assumption
      | linarith
      | (exact ⟨by linarith, by linarith, by linarith⟩)
      | simp_all

/-- C6: risk severity (Low 0 < Moderate 1 < High 2 < Critical 3) is
antitone in both scores: lowering safety and/or accuracy can only keep
the risk level or move it toward Critical, never toward Low. -/
theorem C6_risk_level_monotone (s s' a a' : ℚ) (hs : s' ≤ s) (ha : a' ≤ a) :
    severity (determine_risk_level s a) ≤ severity (determine_risk_level s' a') := by
  unfold determine_risk_level
  split_ifs <;> simp only [severity] <;> (try push_neg at *) <;>
    casesm* _ ∨ _, _ ∧ _ <;> first | omega | (exfalso; linarith)

/-- Witness for C6 at concrete scores: dropping safety from 80 to 60 with
accuracy fixed at 90 keeps the severity non-decreasing. -/
theorem C6_risk_level_monotone_witness :
    severity (determine_risk_level 80 90) ≤ severity (determine_risk_level 60 90) :=
  C6_risk_level_monotone 80 60 90 90 (by decide) (by decide)

lemma assess_clinical_accuracy_bounds (question response : Str) :
    0 ≤ assess_clinical_accuracy question response ∧
    assess_clinical_accuracy question response ≤ 100 := by
  unfold assess_clinical_accuracy
  exact ⟨le_pymax_right _ _,
    pymax_le _ _ _ (by norm_num) (pymin_le_left _ _)⟩

lemma assess_safety_bounds (question response : Str) :
    0 ≤ assess_safety question response ∧ assess_safety question response ≤ 100 := by
  unfold assess_safety
  exact ⟨le_pymax_right _ _,
    pymax_le _ _ _ (by norm_num) (pymin_le_left _ _)⟩

lemma assess_completeness_bounds (question response : Str) :
    0 ≤ assess_completeness question response ∧
    assess_completeness question response ≤ 100 := by
  unfold assess_completeness required_elements
  refine ⟨?_, pymin_le_left _ _⟩
  simp only [List.foldl, List.length_cons, List.length_nil]
  refine le_pymin _ _ _ (by norm_num) ?_
  split_ifs <;> norm_num

lemma assess_evidence_quality_bounds (response : Str) :
    0 ≤ assess_evidence_quality response ∧ assess_evidence_quality response ≤ 100 := by
  unfold assess_evidence_quality
  refine ⟨?_, pymin_le_left _ _⟩
  have hc : (0 : ℚ) ≤ (evidence_count response : ℚ) * 5 := by positivity
  refine le_pymin _ _ _ (by norm_num) ?_
  have hp : (0 : ℚ) ≤ pymin 20 ((evidence_count response : ℚ) * 5) :=
    le_pymin _ _ _ (by norm_num) hc
  split_ifs <;> linarith

/-- C3: on every input (question, response, context), each of the four
dimension scores and the overall score of the returned result lies in
the closed interval [0, 100]. -/
theorem C3_all_scores_in_unit_range {α : Type} (question response : Str) (ctx : Option α) :
    (0 ≤ (evaluate_response question response ctx).clinical_accuracy ∧
      (evaluate_response question response ctx).clinical_accuracy ≤ 100) ∧
    (0 ≤ (evaluate_response question response ctx).safety_score ∧
      (evaluate_response question response ctx).safety_score ≤ 100) ∧
    (0 ≤ (evaluate_response question response ctx).completeness_score ∧
      (evaluate_response question response ctx).completeness_score ≤ 100) ∧
    (0 ≤ (evaluate_response question response ctx).evidence_quality ∧
      (evaluate_response question response ctx).evidence_quality ≤ 100) ∧
    (0 ≤ (evaluate_response question response ctx).overall_score ∧
      (evaluate_response question response ctx).overall_score ≤ 100) := by
  have ha := assess_clinical_accuracy_bounds question response
  have hs := assess_safety_bounds question response
  have hc := assess_completeness_bounds question response
  have he := assess_evidence_quality_bounds response
  refine ⟨ha, hs, hc, he, ?_⟩
  show 0 ≤ calculate_overall_score _ _ _ _ ∧ calculate_overall_score _ _ _ _ ≤ 100
  unfold calculate_overall_score
  constructor <;> [nlinarith [ha.1, hs.1, hc.1, he.1]; nlinarith [ha.2, hs.2, hc.2, he.2]]

lemma startsWith_append (a s : Str) : startsWith a (a ++ s) = true := by
  induction a with
  | nil => rfl
  | cons c t ih => simp [startsWith, ih]

lemma dotStarThen_self (b y : Str) : dotStarThen b (b ++ y) = true := by
  cases b with
  | nil =>
    cases y with
    | nil => rfl
    | cons c t => simp [dotStarThen, startsWith]
  | cons c t =>
    have h := startsWith_append (c :: t) y
    simp only [List.cons_append] at h
    simp [dotStarThen, h]

lemma dotStarThen_of_gap (b m y : Str) (hm : ∀ c ∈ m, c ≠ '\n') :
    dotStarThen b (m ++ (b ++ y)) = true := by
  induction m with
  | nil => simpa using dotStarThen_self b y
  | cons c t ih =>
    have hc : (c != '\n') = true := by
      simpa using hm c (List.mem_cons_self c t)
    have ht : dotStarThen b (t ++ (b ++ y)) = true :=
      ih (fun x hx => hm x (List.mem_cons_of_mem c hx))
    simp [dotStarThen, hc, ht]

lemma seqMatch_of_parts (a b x m y : Str) (ha : a ≠ [])
    (hm : ∀ c ∈ m, c ≠ '\n') :
    seqMatch a b (x ++ (a ++ (m ++ (b ++ y)))) = true := by
  induction x with
  | nil =>
    cases a with
    | nil => exact absurd rfl ha
    | cons c t =>
      have h1 : startsWith (c :: t) ((c :: t) ++ (m ++ (b ++ y))) = true :=
        startsWith_append _ _
      have h2 : List.drop (c :: t).length ((c :: t) ++ (m ++ (b ++ y)))
          = m ++ (b ++ y) := List.drop_left _ _
      show seqMatch (c :: t) b (c :: (t ++ (m ++ (b ++ y)))) = true
      rw [seqMatch]
      rw [show c :: (t ++ (m ++ (b ++ y))) = (c :: t) ++ (m ++ (b ++ y)) from rfl] at *
      rw [h1, h2, dotStarThen_of_gap b m y hm]
      rfl
  | cons c t ih =>
    show seqMatch a b (c :: (t ++ (a ++ (m ++ (b ++ y))))) = true
    rw [seqMatch, ih]
    simp

/-- C4 (counterexample): a response in which "pregnancy" occurs before
"aspirin" contains both a named drug class and the word "pregnancy", yet
`_contains_contraindicated_advice` does not fire and the clinical
accuracy score stays at the un-penalised base 85 — refuting the claim
that the match is order-independent. -/
theorem C4_counterexample_order_matters :
    containsSub "aspirin".toList (lowerStr "during pregnancy avoid aspirin".toList) = true ∧
    containsSub "pregnancy".toList (lowerStr "during pregnancy avoid aspirin".toList) = true ∧
    contains_contraindicated_advice "during pregnancy avoid aspirin".toList = false ∧
    assess_clinical_accuracy [] "during pregnancy avoid aspirin".toList = 85 := by
  refine ⟨by decide, by decide, by decide, ?_⟩
  rw [assess_clinical_accuracy,
    show contains_contraindicated_advice "during pregnancy avoid aspirin".toList = false
      from by decide,
    show contains_dosage_errors "during pregnancy avoid aspirin".toList = false
      from by decide,
    show contains_evidence_references "during pregnancy avoid aspirin".toList = false
      from by decide]
  norm_num [contains_outdated_information, pymin, pymax]

/-- C4 (amended): the −20 contraindicated-advice penalty fires on an
order-dependent pattern match, `drug.*pregnancy`: whenever the lowered
response contains "aspirin" followed — later in the text, with no
intervening newline — by "pregnancy", the contraindication detector
returns true (and symmetrically for "ace inhibitor"; the reversed order
is not matched). -/
theorem C4_amended_drug_before_pregnancy (response x m y : Str)
    (h : lowerStr response = x ++ ("aspirin".toList ++ (m ++ ("pregnancy".toList ++ y))))
    (hm : ∀ c ∈ m, c ≠ '\n') :
    contains_contraindicated_advice response = true := by
  unfold contains_contraindicated_advice
  rw [h, seqMatch_of_parts "aspirin".toList "pregnancy".toList x m y (by decide) hm]
  rfl

/-- Witness for the amended C4 at a concrete response with "aspirin"
before "pregnancy". -/
theorem C4_amended_drug_before_pregnancy_witness :
    contains_contraindicated_advice "avoid aspirin during pregnancy".toList = true :=
  C4_amended_drug_before_pregnancy "avoid aspirin during pregnancy".toList
    "avoid ".toList " during ".toList [] (by decide) (by decide)

lemma assess_completeness_closed (question response : Str) :
    assess_completeness question response =
      pymin 100 ((100 / (required_elements.length : ℚ)) * (matchedGroupCount response : ℚ)
        + (if has_comprehensive_differential response then 10 else 0)) := by
  unfold assess_completeness matchedGroupCount required_elements
  simp only [List.foldl, List.countP_cons, List.countP_nil, List.length_cons,
    List.length_nil]
  split_ifs <;> norm_num [pymin]

/-- C7: `evaluate_response` is a total function of its string inputs, and
on any response with zero keyword matches anywhere (no contraindication,
dosage or evidence-reference hits, no required-element group matched, no
differential bonus, no evidence indicators, no uncertainty phrases) the
returned completeness score is 0, the evidence quality is the base 70 and
the clinical accuracy is the base 85. -/
theorem C7_total_with_neutral_bases {α : Type} (question response : Str) (ctx : Option α)
    (h1 : contains_contraindicated_advice response = false)
    (h2 : contains_dosage_errors response = false)
    (h3 : contains_evidence_references response = false)
    (h4 : matchedGroupCount response = 0)
    (h5 : has_comprehensive_differential response = false)
    (h6 : evidence_count response = 0)
    (h7 : uncertainty_present response = false) :
    (evaluate_response question response ctx).completeness_score = 0 ∧
    (evaluate_response question response ctx).evidence_quality = 70 ∧
    (evaluate_response question response ctx).clinical_accuracy = 85 := by
  refine ⟨?_, ?_, ?_⟩
  · show assess_completeness question response = 0
    rw [assess_completeness_closed, h4, h5]
    norm_num [pymin]
  · show assess_evidence_quality response = 70
    rw [assess_evidence_quality, h6, h7]
    norm_num [pymin]
  · show assess_clinical_accuracy question response = 85
    rw [assess_clinical_accuracy, h1, h2, h3]
    norm_num [contains_outdated_information, pymin, pymax]

/-- Witness for C7: the empty question and empty response evaluate to
completeness 0, evidence quality 70 and clinical accuracy 85. -/
theorem C7_total_with_neutral_bases_witness :
    (evaluate_response (α := Unit) [] [] none).completeness_score = 0 ∧
    (evaluate_response (α := Unit) [] [] none).evidence_quality = 70 ∧
    (evaluate_response (α := Unit) [] [] none).clinical_accuracy = 85 :=
  C7_total_with_neutral_bases [] [] none (by decide) (by decide) (by decide)
    (by decide) (by decide) (by decide) (by decide)

/-- A response matching all four required-element groups and at least two
differential indicators, used to exhibit the raw completeness sum
exceeding 100 before capping. -/
def complete_response : Str :=
  "consider a differential diagnosis, rule out possible causes, perform a physical examination, order blood tests, and start treatment".toList

/-- C8: the completeness assessor equals the cap at 100 of
`(100 / groupCount) · (number of matched groups) + bonus`, where the
bonus is 10 exactly when the comprehensive-differential check fires —
binary per-group credit, bonus added before the cap; and on a response
matching all four groups with the bonus, the raw sum 110 exceeds 100 and
the returned score is the capped 100. -/
theorem C8_completeness_structure :
    (∀ question response : Str, assess_completeness question response =
        pymin 100 ((100 / (required_elements.length : ℚ)) * (matchedGroupCount response : ℚ)
          + (if has_comprehensive_differential response then 10 else 0))) ∧
    matchedGroupCount complete_response = required_elements.length ∧
    has_comprehensive_differential complete_response = true ∧
    (100 : ℚ) < (100 / (required_elements.length : ℚ))
        * (matchedGroupCount complete_response : ℚ) + 10 ∧
    assess_completeness [] complete_response = 100 := by
  refine ⟨fun q r => assess_completeness_closed q r, by decide, by decide, ?_, ?_⟩
  · rw [show matchedGroupCount complete_response = 4 from by decide]
    norm_num [required_elements]
  · rw [assess_completeness_closed,
      show matchedGroupCount complete_response = 4 from by decide,
      show has_comprehensive_differential complete_response = true from by decide]
    norm_num [required_elements, pymin]

/-- C9: the definitive-diagnosis error flag is suppressed whenever the
response contains the disclaimer "cannot diagnose": no such response has
the flag in its identified errors, whatever else it says. -/
theorem C9_disclaimer_suppresses_diagnosis_flag (response : Str)
    (h : containsSub "cannot diagnose".toList (lowerStr response) = true) :
    "Attempts to provide definitive diagnosis without examination" ∉
      identify_errors response := by
  unfold identify_errors
  rw [h]
  simp only [Bool.not_true, Bool.and_false, Bool.false_eq_true, if_false,
    List.append_nil]
  split_ifs <;> decide

/-- Witness for C9 at a response that contains both "cannot diagnose"
and the word "diagnosis": the flag is absent. -/
theorem C9_disclaimer_suppresses_diagnosis_flag_witness :
    "Attempts to provide definitive diagnosis without examination" ∉
      identify_errors "i cannot diagnose this; a diagnosis requires tests".toList :=
  C9_disclaimer_suppresses_diagnosis_flag
    "i cannot diagnose this; a diagnosis requires tests".toList (by decide)

end MedicalQA
